import Mathlib

/-!
Verification of the guarded query pipeline of the NYC 311 analytics agent.

The development shallowly embeds the pipeline code of
`src/query_executor.py` and `src/analytics_agent.py`:

* Python exceptions are modelled as `Except String` values;
* the external LLM collaborator calls are modelled as `Except String String`
  parameters holding the outcome of the call (content on success, the
  exception message on failure);
* the SQLite store is modelled as an oracle `String → Except String (List Row)`;
* the JSON decoder (`json.loads`, an external library) is modelled as a
  parameter `String → Option Intent`;
* the mutable `NYC311AnalyticsState` dict is an explicit record threaded
  through the stage functions.
-/

namespace NYC311

/-- The backtick character, used by the markdown-fence stripping code. -/
def btk : Char := Char.ofNat 96

/-- Python `\w` word character for the ASCII alphabet: `[A-Za-z0-9_]`. -/
def isWordChar (c : Char) : Bool := c.isAlphanum || c = '_'

/-- Python whitespace as used by `str.strip` and the regex class `\s`:
space, tab, newline, carriage return, vertical tab, form feed. -/
def isPySpace (c : Char) : Bool :=
  c = ' ' || c = '\t' || c = '\n' || c = '\r' || c = Char.ofNat 11 || c = Char.ofNat 12

/-- Python `str.strip()` on a character list. -/
def pyStripL (l : List Char) : List Char :=
  ((l.dropWhile isPySpace).reverse.dropWhile isPySpace).reverse

/-- Python `str.strip()`. -/
def pyStrip (s : String) : String := String.mk (pyStripL s.data)

/-- Python `str.upper()` (ASCII case mapping). -/
def pyUpper (s : String) : String := String.mk (s.data.map Char.toUpper)

/-- Python `str.lower()` (ASCII case mapping). -/
def pyLower (s : String) : String := String.mk (s.data.map Char.toLower)

/-- Python `s.startswith(pre)`. -/
def startsWithS (pre s : String) : Bool := pre.data.isPrefixOf s.data

/-- Python `s.endswith(suf)`. -/
def endsWithS (suf s : String) : Bool := suf.data.reverse.isPrefixOf s.data.reverse

/-- Left-to-right scan of Python `s.replace(pat, repl)` for a non-empty
pattern.  The fuel argument (initially the list length) only serves
termination. -/
def replaceAllAux (pat repl : List Char) : Nat → List Char → List Char
  | 0, l => l
  | _ + 1, [] => []
  | fuel + 1, c :: rest =>
    if pat.isPrefixOf (c :: rest) ∧ pat ≠ [] then
      repl ++ replaceAllAux pat repl fuel ((c :: rest).drop pat.length)
    else c :: replaceAllAux pat repl fuel rest

/-- Python `s.replace(pat, repl)`. -/
def pyReplace (s pat repl : String) : String :=
  String.mk (replaceAllAux pat.data repl.data s.data.length s.data)

/-- Whether the word `w` occurs at the head of `s` as a whole word,
`pre` being the character immediately before `s` (`none` at the start of
the scanned string).  This is the regex `\bw\b` anchored at the current
scan position. -/
def wordAt (w : List Char) (pre : Option Char) (s : List Char) : Bool :=
  w.isPrefixOf s &&
    (match pre with
     | none => true
     | some c => !isWordChar c) &&
    (match s.drop w.length with
     | [] => true
     | c :: _ => !isWordChar c)

/-- Scan of `re.search` for the whole-word pattern `\bw\b`: tries the match
at every position of `s`, tracking the previous character for the left
boundary. -/
def containsWordAux (w : List Char) : Option Char → List Char → Bool
  | pre, [] => wordAt w pre []
  | pre, c :: rest => wordAt w pre (c :: rest) || containsWordAux w (some c) rest

/-- `re.search(r'\b' + w + r'\b', s) is not None` for a literal keyword `w`. -/
def containsWordS (w : String) (s : String) : Bool :=
  containsWordAux w.data none s.data

/-- The dangerous keywords of `QueryExecutor.blocked_patterns`; in the source
each entry is the regex `\bK\b` for the keyword `K`. -/
def blocked_keywords : List String :=
  ["DROP", "DELETE", "INSERT", "UPDATE", "ALTER", "CREATE"]

/-- The message of the `ValueError` raised for a blocked keyword: the source
interpolates the regex pattern `\bK\b` into the message. -/
def unsafeMsg (k : String) : String :=
  "Unsafe SQL operation detected: \\b" ++ k ++ "\\b"

/-- `QueryExecutor.validate_sql_safety`.  The Python function uppercases and
strips the query, raises `ValueError` for the first blocked pattern found,
raises `ValueError` if the result does not start with `SELECT`, and returns
`True` otherwise.  The raised `ValueError` is the `Except.error` case. -/
def validate_sql_safety (sql_query : String) : Except String Unit :=
  let sql_upper := pyStrip (pyUpper sql_query)
  match blocked_keywords.find? (fun k => containsWordS k sql_upper) with
  | some k => .error (unsafeMsg k)
  | none =>
    if startsWithS "SELECT" sql_upper then .ok ()
    else .error "Only SELECT queries are allowed"

/-- Modelled from the spec's words for claim C1 (refinement side): after
trimming whitespace and ignoring case, the query begins with `SELECT` and
contains none of the blocked keywords as a whole-word match anywhere. -/
def safety_spec_permits (sql_query : String) : Prop :=
  let n := pyStrip (pyUpper sql_query)
  startsWithS "SELECT" n = true ∧ ∀ k ∈ blocked_keywords, ¬ containsWordS k n = true

instance (q : String) : Decidable (safety_spec_permits q) := by
  unfold safety_spec_permits; infer_instance

/-- A cell value of a result row: SQLite values reaching the pipeline are
modelled as integers or strings. -/
inductive Value where
  | int (n : Int)
  | str (s : String)
deriving Repr, DecidableEq

/-- Python `str(v)` / `f"{v}"` on a cell value. -/
def Value.format : Value → String
  | .int n => toString n
  | .str s => s

/-- A result row: `dict(row)` of a `sqlite3.Row`, an ordered mapping from
column name to value. -/
abbrev Row := List (String × Value)

/-- The parsed intent dict.  Keys the pipeline reads are modelled as
optional fields; `d.get(key, default)` is `field.getD default`. -/
structure Intent where
  related_to_data : Option Bool := none
  is_greeting : Option Bool := none
  complexity : Option String := none
  query_type : Option String := none
deriving Repr, DecidableEq

/-- The empty dict `{}`. -/
def Intent.empty : Intent := {}

/-- The visualization dict built by `prepare_visualization`. -/
structure VizData where
  type : String
  data : List Row
  x_column : Option String
  y_column : Option String
deriving Repr, DecidableEq

/-- `NYC311AnalyticsState`: the mutable state threaded through the LangGraph
workflow.  `visualization_data` is `none` for the initial empty dict `{}`. -/
structure NYC311AnalyticsState where
  user_query : String
  parsed_intent : Intent
  sql_query : String
  query_results : List Row
  analysis_summary : String
  visualization_data : Option VizData
  final_response : String
  error_message : String
deriving Repr, DecidableEq

/-- The initial state dict built by `process_query`. -/
def initState (user_query : String) : NYC311AnalyticsState where
  user_query := user_query
  parsed_intent := Intent.empty
  sql_query := ""
  query_results := []
  analysis_summary := ""
  visualization_data := none
  final_response := ""
  error_message := ""

/-- The store oracle: the outcome of `conn.execute(sql)` + `fetchall()`
(rows on success, the raised exception's message on failure). -/
abbrev Db := String → Except String (List Row)

/-- Outcome of `QueryExecutor.execute_safe_query`, together with a trace of
the sqlite connection: whether `sqlite3.connect` ran and whether
`conn.close()` ran before the function returned or re-raised. -/
structure ExecOutcome where
  result : Except String (List Row)
  conn_opened : Bool
  conn_closed : Bool
deriving Repr

/-- `QueryExecutor.execute_safe_query`.  The `try` block validates, opens the
connection, executes, converts rows and closes; the `except` clause
re-raises `Exception("Database query error: " + str(e))`.  There is no
`finally`/context manager in the source, so a failure after
`sqlite3.connect` leaves the connection open: the trace records this. -/
def execute_safe_query (db : Db) (sql_query : String) : ExecOutcome :=
  match validate_sql_safety sql_query with
  | .error e =>
    { result := .error ("Database query error: " ++ e)
      conn_opened := false, conn_closed := false }
  | .ok _ =>
    match db sql_query with
    | .error e =>
      { result := .error ("Database query error: " ++ e)
        conn_opened := true, conn_closed := false }
    | .ok rows =>
      { result := .ok rows, conn_opened := true, conn_closed := true }

/-- `NYC311AnalyticsAgent.execute_query` (workflow node).  Skips when an
error is already recorded or no SQL was generated; otherwise runs
`execute_safe_query`, storing rows on success and recording
`"Query execution failed: ..."` on exception. -/
def execute_query (db : Db) (s : NYC311AnalyticsState) : NYC311AnalyticsState :=
  if s.error_message ≠ "" ∨ s.sql_query = "" then s
  else
    match (execute_safe_query db s.sql_query).result with
    | .ok results => { s with query_results := results }
    | .error e => { s with error_message := "Query execution failed: " ++ e }

/-- `NYC311AnalyticsAgent.analyze_results` (workflow node).  Skips when an
error is recorded or there are no results; stores the collaborator's
narrative on success, records `"Analysis failed: ..."` on exception. -/
def analyze_results (resp : Except String String) (s : NYC311AnalyticsState) :
    NYC311AnalyticsState :=
  if s.error_message ≠ "" ∨ s.query_results = [] then s
  else
    match resp with
    | .ok content => { s with analysis_summary := content }
    | .error e => { s with error_message := "Analysis failed: " ++ e }

/-- The chart-eligible query kinds of `should_create_visualization`. -/
def viz_types : List String :=
  ["top_n", "comparison", "geographic_analysis", "time_analysis"]

/-- `parsed_intent.get("query_type") in viz_types`: false when the key is
absent (`None in viz_types` is false). -/
def queryTypeEligible (i : Intent) : Bool :=
  match i.query_type with
  | some t => viz_types.contains t
  | none => false

/-- `NYC311AnalyticsAgent.should_create_visualization`: the conditional-edge
predicate. -/
def should_create_visualization (s : NYC311AnalyticsState) : String :=
  if s.error_message ≠ "" then "skip_viz"
  else if queryTypeEligible s.parsed_intent ∧ s.query_results.length > 1 then
    "visualize"
  else "skip_viz"

/-- `NYC311AnalyticsAgent.prepare_visualization` (workflow node).  Every row
in the model is a dict, so the `isinstance` check always passes. -/
def prepare_visualization (s : NYC311AnalyticsState) : NYC311AnalyticsState :=
  match s.query_results with
  | [] => s
  | r0 :: _ =>
    let columns := r0.map Prod.fst
    { s with
      visualization_data := some
        { type := "bar"
          data := s.query_results.take 20
          x_column := columns.head?
          y_column := columns[1]? } }

/-- The Result Shaper as wired in `build_workflow`: the conditional edge
after `analyze_results` runs `prepare_visualization` exactly when the
predicate answers `"visualize"`. -/
def vizStage (s : NYC311AnalyticsState) : NYC311AnalyticsState :=
  if should_create_visualization s = "visualize" then prepare_visualization s
  else s

/-- Python regex `\w*` consumption at the head of a list. -/
def dropWordChars : List Char → List Char
  | [] => []
  | c :: rest => if isWordChar c then dropWordChars rest else c :: rest

/-- Python regex `\n?` consumption at the head of a list. -/
def dropOptNewline : List Char → List Char
  | [] => []
  | c :: rest => if c = '\n' then rest else c :: rest

/-- Left-to-right scan of `re.sub(r'```\w*\n?', '', _)`: deletes every
triple backtick together with the word characters and optional newline that
follow it.  The fuel argument (initially the list length, always at least
the length of the scanned list) only serves termination. -/
def stripFencesAux : Nat → List Char → List Char
  | 0, l => l
  | _ + 1, [] => []
  | fuel + 1, c :: rest =>
    if c = btk then
      match rest with
      | c2 :: c3 :: rest2 =>
        if c2 = btk ∧ c3 = btk then
          stripFencesAux fuel (dropOptNewline (dropWordChars rest2))
        else c :: stripFencesAux fuel rest
      | _ => c :: stripFencesAux fuel rest
    else c :: stripFencesAux fuel rest

/-- `re.sub(r'```\w*\n?', '', s)`. -/
def stripFences (s : String) : String :=
  String.mk (stripFencesAux s.data.length s.data)

/-- Left-to-right scan of `re.sub(r'```\n?', '', _)` (the second cleanup
pass of `parse_user_query`). -/
def stripBareAux : Nat → List Char → List Char
  | 0, l => l
  | _ + 1, [] => []
  | fuel + 1, c :: rest =>
    if c = btk then
      match rest with
      | c2 :: c3 :: rest2 =>
        if c2 = btk ∧ c3 = btk then stripBareAux fuel (dropOptNewline rest2)
        else c :: stripBareAux fuel rest
      | _ => c :: stripBareAux fuel rest
    else c :: stripBareAux fuel rest

/-- `re.sub(r'```\n?', '', s)`. -/
def stripBare (s : String) : String :=
  String.mk (stripBareAux s.data.length s.data)

/-- Index of the first occurrence of a character. -/
def firstIdx (c : Char) : List Char → Option Nat
  | [] => none
  | x :: rest => if x = c then some 0 else (firstIdx c rest).map (· + 1)

/-- Index of the last occurrence of a character. -/
def lastIdx (c : Char) (l : List Char) : Option Nat :=
  (firstIdx c l.reverse).map (fun k => l.length - 1 - k)

/-- The opening and closing brace characters. -/
def lbrace : Char := Char.ofNat 123

/-- The closing brace character. -/
def rbrace : Char := Char.ofNat 125

/-- The JSON-extraction step of `parse_user_query`: if the text already
starts with a brace and ends with a brace it is kept; otherwise
`re.search(r'\{.*\}', text, re.DOTALL)` — greedy, so spanning from the
first opening brace to the last closing brace when one follows it — is
substituted when it matches. -/
def braceExtract (t : String) : String :=
  if startsWithS "\x7b" t ∧ endsWithS "\x7d" t then t
  else
    match firstIdx lbrace t.data, lastIdx rbrace t.data with
    | some i, some j =>
      if i < j then String.mk ((t.data.drop i).take (j - i + 1)) else t
    | _, _ => t

/-- The single-quote character. -/
def squote : Char := Char.ofNat 39

/-- The double-quote character. -/
def dquote : Char := Char.ofNat 34

/-- `text.replace("'", '"')`: the last-resort JSON cleanup. -/
def swapQuotes (s : String) : String :=
  String.mk (s.data.map (fun c => if c = squote then dquote else c))

/-- The response-text normalization of `parse_user_query`: strip, remove
markdown fences (both cleanup regexes), strip again, then extract the
JSON object text. -/
def intentResponseText (content : String) : String :=
  braceExtract (pyStrip (stripBare (stripFences (pyStrip content))))

/-- The safe default intent `parse_user_query` stores when the response is
empty or fails both JSON decoding attempts. -/
def fallbackIntent : Intent :=
  { related_to_data := some false, is_greeting := some false
    complexity := some "unrelated" }

/-- `NYC311AnalyticsAgent.parse_user_query` (workflow node).  `resp` is the
outcome of the collaborator call (`llm.ainvoke`); `jsonLoads` models
`json.loads` restricted to intent objects (`none` when decoding raises).
A failed call lands in the outer `except` and records an error; an
undecodable response falls back to `fallbackIntent`. -/
def parse_user_query (resp : Except String String)
    (jsonLoads : String → Option Intent) (s : NYC311AnalyticsState) :
    NYC311AnalyticsState :=
  match resp with
  | .error e => { s with error_message := "Could not understand the question: " ++ e }
  | .ok content =>
    let response_text := intentResponseText content
    if pyStrip response_text = "" then { s with parsed_intent := fallbackIntent }
    else
      match jsonLoads response_text with
      | some intent => { s with parsed_intent := intent }
      | none =>
        match jsonLoads (swapQuotes response_text) with
        | some intent => { s with parsed_intent := intent }
        | none => { s with parsed_intent := fallbackIntent }

/-- The characters of the literal `year_created`. -/
def ycL : List Char := "year_created".data

/-- Regex `\s*` consumption. -/
def dropSpacesL (l : List Char) : List Char := l.dropWhile isPySpace

/-- Anchored match of the regex `year_created\s*=\s*(\d{4})`: on success
returns the four captured digit characters and the remainder of the list. -/
def matchYearAt (l : List Char) : Option (List Char × List Char) :=
  if ycL.isPrefixOf l then
    match dropSpacesL (l.drop ycL.length) with
    | c :: l3 =>
      if c = '=' then
        match dropSpacesL l3 with
        | d1 :: d2 :: d3 :: d4 :: l5 =>
          if d1.isDigit ∧ d2.isDigit ∧ d3.isDigit ∧ d4.isDigit then
            some ([d1, d2, d3, d4], l5)
          else none
        | _ => none
      else none
    | [] => none
  else none

/-- The replacement text `strftime('%Y', created_date) = '\1'`. -/
def yearRepl (y : List Char) : List Char :=
  "strftime(\x27%Y\x27, created_date) = \x27".data ++ y ++ [squote]

/-- Left-to-right scan of
`re.sub(r"year_created\s*=\s*(\d{4})", r"strftime('%Y', created_date) = '\1'", _)`.
The fuel argument (initially the list length) only serves termination. -/
def subYearAux : Nat → List Char → List Char
  | 0, l => l
  | _ + 1, [] => []
  | fuel + 1, c :: rest =>
    match matchYearAt (c :: rest) with
    | some (y, r) => yearRepl y ++ subYearAux fuel r
    | none => c :: subYearAux fuel rest

/-- Substring containment (`pat in s` for Python strings). -/
def containsSubL (pat : List Char) : List Char → Bool
  | [] => pat.isEmpty
  | c :: rest => pat.isPrefixOf (c :: rest) || containsSubL pat rest

/-- The literal `'``````'` (six backticks) removed by `generate_sql_query`. -/
def sixBackticks : String := String.mk (List.replicate 6 btk)

/-- `NYC311AnalyticsAgent.generate_sql_query` (workflow node): skips when an
error is recorded; otherwise strips the collaborator's SQL text, removes
the six-backtick artifact, rewrites `year_created = YYYY` filters, and
stores the query.  A failed collaborator call records an error. -/
def generate_sql_query (resp : Except String String)
    (s : NYC311AnalyticsState) : NYC311AnalyticsState :=
  if s.error_message ≠ "" then s
  else
    match resp with
    | .error e => { s with error_message := "Could not generate query: " ++ e }
    | .ok content =>
      let sql1 := pyStrip (pyReplace (pyStrip content) sixBackticks "")
      let sql2 :=
        if containsSubL ycL sql1.data then
          String.mk (subYearAux sql1.data.length sql1.data)
        else sql1
      { s with sql_query := sql2 }

/-- The Branch A error response, identical in both definitions of
`format_final_response`. -/
def errorResponse (m : String) : String :=
  "I encountered an issue: " ++ m ++
  "\n\nPlease try rephrasing your question or ask something like:\n- \x27What are the top 10 complaint types?\x27\n- \x27Which borough has the most complaints?\x27\n- \x27What percentage of complaints are closed within 3 days?\x27"

/-- `", ".join([f"{k}: {v}" for k, v in result.items()])`. -/
def formatRowItems (r : Row) : String :=
  String.intercalate ", " (r.map (fun kv => kv.1 ++ ": " ++ kv.2.format))

/-- The numbered detailed-result lines `f"{i+1}. {formatted_result}"`. -/
def numberedLines (i : Nat) : List Row → List String
  | [] => []
  | r :: rest => (toString (i + 1) ++ ". " ++ formatRowItems r) :: numberedLines (i + 1) rest

/-- The `response_parts` list of the detailed/normal composition: analysis
narrative when present, up to 10 numbered result rows, then the executed
query string.  Shared verbatim by the second `format_final_response` and
the detailed branch of the shadowed first one. -/
def composeParts (s : NYC311AnalyticsState) : List String :=
  (if s.analysis_summary ≠ "" then [s.analysis_summary] else []) ++
  (if s.query_results ≠ [] then
    "\n**Detailed Results:**" :: numberedLines 0 (s.query_results.take 10)
   else []) ++
  ["\n*Query used: `" ++ s.sql_query ++ "`*"]

/-- `NYC311AnalyticsAgent.format_final_response` — the SECOND definition in
the class body (lines 377–405), the one Python actually binds, since a later
`def` of the same name shadows the earlier one.  It has no branch for
unrelated/greeting intents. -/
def format_final_response (s : NYC311AnalyticsState) : NYC311AnalyticsState :=
  if s.error_message ≠ "" then
    { s with final_response := errorResponse s.error_message }
  else
    { s with final_response := String.intercalate "\n" (composeParts s) }

/-- The capability-description greeting of the shadowed first
`format_final_response`. -/
def greetingResponse : String :=
  "Hello! I\x27m your NYC 311 Service Requests analytics agent. Please ask me questions about NYC service request data, such as:\n\n• What are the top complaint types?\n• Which borough has the most complaints?\n• What\x27s the average resolution time?\n• How many complaints are geocoded?"

/-- The scope-refusal message of the shadowed first
`format_final_response`. -/
def refusalResponse : String :=
  "I\x27m sorry, but your question appears to be unrelated to NYC 311 service request data. I can only help you analyze NYC service requests data. Please ask questions about complaint types, boroughs, agencies, resolution times, or other aspects of the NYC 311 dataset."

/-- Thousands-separator grouping on a reversed digit list (a comma after
every third digit from the right). -/
def commaRev : List Char → List Char
  | a :: b :: c :: d :: rest => a :: b :: c :: ',' :: commaRev (d :: rest)
  | l => l
termination_by l => l.length

/-- Python `f"{n:,}"` for an integer. -/
def intComma (n : Int) : String :=
  (if n < 0 then "-" else "") ++
    String.mk ((commaRev (toString n.natAbs).data.reverse).reverse)

/-- Python `f"{v:,}"`: thousands formatting, which raises `ValueError` on a
string value. -/
def Value.commaFmt : Value → Except String String
  | .int n => .ok (intComma n)
  | .str _ => .error "Cannot specify \x27,\x27 with \x27s\x27."

/-- The accumulation loop of the concise branch of the shadowed first
`format_final_response`: for each of the first rows, the line
`f"{i+1}. {items[0][1]}: {items[1][1]:,}\n"` when the row has at least two
columns, else the generic key-value join; the `:,` format raises on a
non-numeric second value. -/
def v1SimpleLines : Nat → List Row → Except String String
  | _, [] => .ok ""
  | i, r :: rest =>
    match r with
    | (_, a) :: (_, b) :: _ =>
      match b.commaFmt with
      | .error e => .error e
      | .ok cv =>
        match v1SimpleLines (i + 1) rest with
        | .error e => .error e
        | .ok tail =>
          .ok (toString (i + 1) ++ ". " ++ a.format ++ ": " ++ cv ++ "\n" ++ tail)
    | _ =>
      match v1SimpleLines (i + 1) rest with
      | .error e => .error e
      | .ok tail => .ok (toString (i + 1) ++ ". " ++ formatRowItems r ++ "\n" ++ tail)

/-- `NYC311AnalyticsAgent.format_final_response` — the FIRST definition in
the class body (lines 161–228, commented "FIXED with smart formatting"),
which IS SHADOWED by the second definition and therefore dead code.  It
implements the unrelated/greeting branch and the concise/detailed split the
spec describes.  An uncaught `ValueError` from the `:,` format is the
`Except.error` case. -/
def format_final_response_first (s : NYC311AnalyticsState) :
    Except String NYC311AnalyticsState :=
  if s.error_message ≠ "" then
    .ok { s with final_response := errorResponse s.error_message }
  else if !(s.parsed_intent.related_to_data.getD true) then
    (if s.parsed_intent.is_greeting.getD false then
      .ok { s with final_response := greetingResponse }
     else .ok { s with final_response := refusalResponse })
  else
    let complexity := s.parsed_intent.complexity.getD "simple"
    let lowq := pyLower s.user_query
    if complexity = "detailed" ∨ containsSubL "insight".data lowq.data = true ∨
        containsSubL "detailed".data lowq.data = true then
      .ok { s with final_response := String.intercalate "\n" (composeParts s) }
    else
      match s.query_results with
      | [] =>
        .ok { s with final_response :=
          "No data available.\n\n*Query used: `" ++ s.sql_query ++ "`*" }
      | _ :: _ =>
        match v1SimpleLines 0 (s.query_results.take 5) with
        | .error e => .error e
        | .ok body =>
          let r1 := "Here are the results:\n\n" ++ body
          let r2 :=
            if s.query_results.length > 5 then
              r1 ++ "\n...and " ++ toString (s.query_results.length - 5) ++
                " more results."
            else r1
          .ok { s with final_response :=
            r2 ++ "\n\n*Query used: `" ++ s.sql_query ++ "`*" }

/-- The workflow as wired in `build_workflow`, with the collaborator-call
outcomes and the store passed as parameters: parse, generate, execute,
analyze, the conditional visualization edge, then the (effective, second)
composer. -/
def run_workflow (intentResp : Except String String)
    (jsonLoads : String → Option Intent) (sqlResp : Except String String)
    (db : Db) (analysisResp : Except String String)
    (s : NYC311AnalyticsState) : NYC311AnalyticsState :=
  format_final_response (vizStage (analyze_results analysisResp
    (execute_query db (generate_sql_query sqlResp
      (parse_user_query intentResp jsonLoads s)))))

/-- The record returned by `NYC311AnalyticsAgent.process_query`. -/
structure FinalPayload where
  response : String
  visualization_data : Option VizData
  sql_query : String
  raw_results : List Row
deriving Repr

/-- `NYC311AnalyticsAgent.process_query`: wraps `workflow.ainvoke` in
`try`/`except`; the argument is the outcome of that call (`Except.error`
when the workflow raised). -/
def process_query (outcome : Except String NYC311AnalyticsState) : FinalPayload :=
  match outcome with
  | .ok fs =>
    { response := fs.final_response
      visualization_data := fs.visualization_data
      sql_query := fs.sql_query
      raw_results := fs.query_results }
  | .error e =>
    { response := "Sorry, I encountered an unexpected error: " ++ e
      visualization_data := none
      sql_query := ""
      raw_results := [] }

/-- The four session fields the error invariant protects: `a` agrees with
`b` on `sql_query`, `query_results`, `analysis_summary` and
`visualization_data`. -/
def preservesFields (a b : NYC311AnalyticsState) : Prop :=
  a.sql_query = b.sql_query ∧ a.query_results = b.query_results ∧
  a.analysis_summary = b.analysis_summary ∧
  a.visualization_data = b.visualization_data

/-- A concrete errored session, used to exercise the error invariant. -/
def errStateEx : NYC311AnalyticsState :=
  { initState "what are the top complaints" with
      error_message := "Query execution failed: boom" }

/-- A concrete healthy session holding two result rows. -/
def resultsStateEx : NYC311AnalyticsState :=
  { initState "what are the top complaints" with
      sql_query := "SELECT complaint_type, COUNT(*) AS count FROM nyc_311 GROUP BY complaint_type"
      query_results :=
        [[("complaint_type", Value.str "Noise"), ("count", Value.int 10)],
         [("complaint_type", Value.str "Parking"), ("count", Value.int 7)]] }

/-- A concrete session whose intent marks the question as an unrelated
greeting (the parse of the question `hello`), with no error recorded. -/
def greetingStateEx : NYC311AnalyticsState :=
  { initState "hello" with
      parsed_intent :=
        { related_to_data := some false, is_greeting := some true
          complexity := some "unrelated" } }

/-- A concrete error-free session with a chart-eligible intent and two
result rows, used to exercise the Result Shaper. -/
def vizStateEx : NYC311AnalyticsState :=
  { resultsStateEx with
      parsed_intent :=
        { related_to_data := some true, complexity := some "simple"
          query_type := some "top_n" } }

/-! ## Theorems -/

/-- The boolean membership test of `should_create_visualization` holds
exactly when the intent carries a chart-eligible query kind. -/
theorem queryTypeEligible_iff (i : Intent) :
    queryTypeEligible i = true ↔ ∃ t, i.query_type = some t ∧ t ∈ viz_types := by
  unfold queryTypeEligible
  cases hqt : i.query_type with
  | none => simp
  | some t => simp

/-- C1: the Safety Gate's check permits a query string if and only if the
string, after trimming whitespace and ignoring case, begins with `SELECT`
and contains none of `DROP`, `DELETE`, `INSERT`, `UPDATE`, `ALTER`,
`CREATE` as a whole-word match anywhere; otherwise it rejects, reporting
either the blocked pattern that matched or the allow-list failure. -/
theorem validate_sql_safety_iff_spec (q : String) :
    (validate_sql_safety q = .ok () ↔ safety_spec_permits q) ∧
    (∀ r, validate_sql_safety q = .error r →
      (∃ k ∈ blocked_keywords, r = unsafeMsg k ∧
        containsWordS k (pyStrip (pyUpper q)) = true) ∨
      (r = "Only SELECT queries are allowed" ∧
        ¬ startsWithS "SELECT" (pyStrip (pyUpper q)) = true)) := by
  simp only [validate_sql_safety, safety_spec_permits]
  cases hf : blocked_keywords.find? (fun k => containsWordS k (pyStrip (pyUpper q))) with
  | some k =>
    have hkmem : k ∈ blocked_keywords := List.mem_of_find?_eq_some hf
    have hkw : containsWordS k (pyStrip (pyUpper q)) = true := by
      simpa using List.find?_some hf
    refine ⟨⟨fun h => Except.noConfusion h, ?_⟩, ?_⟩
    · rintro ⟨-, hno⟩
      exact absurd hkw (hno k hkmem)
    · intro r hr
      exact Or.inl ⟨k, hkmem, (Except.error.inj hr).symm, hkw⟩
  | none =>
    have hno : ∀ k ∈ blocked_keywords,
        ¬ containsWordS k (pyStrip (pyUpper q)) = true :=
      fun k hk => List.find?_eq_none.mp hf k hk
    by_cases hsel : startsWithS "SELECT" (pyStrip (pyUpper q)) = true
    · rw [if_pos hsel]
      refine ⟨iff_of_true rfl ⟨hsel, hno⟩, ?_⟩
      intro r hr
      exact Except.noConfusion hr
    · rw [if_neg hsel]
      refine ⟨iff_of_false (fun h => Except.noConfusion h) ?_, ?_⟩
      · rintro ⟨hs, -⟩
        exact hsel hs
      · intro r hr
        exact Or.inr ⟨(Except.error.inj hr).symm, hsel⟩

/-- Witness for C1 at the spec's scenario-3 query `DELETE FROM nyc_311`:
the gate rejects it and reports the triggering blocked pattern. -/
theorem validate_sql_safety_iff_spec_witness :
    validate_sql_safety "DELETE FROM nyc_311" = .error (unsafeMsg "DELETE") ∧
    ((∃ k ∈ blocked_keywords, unsafeMsg "DELETE" = unsafeMsg k ∧
        containsWordS k (pyStrip (pyUpper "DELETE FROM nyc_311")) = true) ∨
      (unsafeMsg "DELETE" = "Only SELECT queries are allowed" ∧
        ¬ startsWithS "SELECT" (pyStrip (pyUpper "DELETE FROM nyc_311")) = true)) :=
  ⟨rfl, (validate_sql_safety_iff_spec "DELETE FROM nyc_311").2 (unsafeMsg "DELETE") rfl⟩

/-- C7: the Safety Gate's check is total: for every input string it settles
into exactly one of the listed outcomes — permitted, rejected with a
blocked-pattern message, or rejected with the allow-list message — as an
ordinary value. -/
theorem validate_sql_safety_total (q : String) :
    validate_sql_safety q = .ok () ∨
    (∃ k ∈ blocked_keywords, validate_sql_safety q = .error (unsafeMsg k)) ∨
    validate_sql_safety q = .error "Only SELECT queries are allowed" := by
  simp only [validate_sql_safety]
  cases hf : blocked_keywords.find? (fun k => containsWordS k (pyStrip (pyUpper q))) with
  | some k =>
    exact Or.inr (Or.inl ⟨k, List.mem_of_find?_eq_some hf, rfl⟩)
  | none =>
    by_cases hsel : startsWithS "SELECT" (pyStrip (pyUpper q)) = true
    · exact Or.inl (if_pos hsel)
    · exact Or.inr (Or.inr (if_neg hsel))

/-- C2: if the safety validation rejects the session's query text, the
execution stage leaves `query_results` in its initial empty state. -/
theorem query_results_empty_of_rejected (db : Db) (s : NYC311AnalyticsState)
    (e : String) (hrej : validate_sql_safety s.sql_query = .error e)
    (h0 : s.query_results = []) :
    (execute_query db s).query_results = [] := by
  unfold execute_query
  split
  · exact h0
  · simp [execute_safe_query, hrej, h0]

/-- Witness for C2 at the spec's scenario-3 query `DELETE FROM nyc_311`. -/
theorem query_results_empty_of_rejected_witness :
    validate_sql_safety "DELETE FROM nyc_311" = .error (unsafeMsg "DELETE") ∧
    (execute_query (fun _ => .ok [[("a", Value.int 1)]])
      { initState "q" with sql_query := "DELETE FROM nyc_311" }).query_results = [] := by
  refine ⟨rfl, ?_⟩
  exact query_results_empty_of_rejected _ _ "Unsafe SQL operation detected: \\bDELETE\\b" rfl rfl

/-- C9 (code bug): on the query-failure exit path of `execute_safe_query`,
the sqlite connection opened for the query is NOT closed before the failure
propagates — the source has no `finally`/context manager, so the store
error leaves the connection open. -/
theorem execute_safe_query_connection_leak :
    (execute_safe_query (fun _ => .error "no such table: nyc_311")
      "SELECT * FROM nyc_311").conn_opened = true ∧
    (execute_safe_query (fun _ => .error "no such table: nyc_311")
      "SELECT * FROM nyc_311").conn_closed = false ∧
    (execute_safe_query (fun _ => .error "no such table: nyc_311")
      "SELECT * FROM nyc_311").result =
      .error "Database query error: no such table: nyc_311" := by
  exact ⟨rfl, rfl, rfl⟩

/-- C3: once the session's error field is set, every subsequent stage —
query synthesis, execution, analysis, the visualization branch, and the
composer — leaves `sql_query`, `query_results`, `analysis_summary` and
`visualization_data` unchanged. -/
theorem error_frozen_fields (sqlResp analysisResp : Except String String)
    (db : Db) (s : NYC311AnalyticsState) (h : s.error_message ≠ "") :
    preservesFields (generate_sql_query sqlResp s) s ∧
    preservesFields (execute_query db s) s ∧
    preservesFields (analyze_results analysisResp s) s ∧
    preservesFields (vizStage s) s ∧
    preservesFields (format_final_response s) s := by
  have hviz : should_create_visualization s = "skip_viz" := by
    unfold should_create_visualization
    rw [if_pos h]
  refine ⟨?_, ?_, ?_, ?_, ?_⟩
  · unfold generate_sql_query
    rw [if_pos h]
    exact ⟨rfl, rfl, rfl, rfl⟩
  · unfold execute_query
    rw [if_pos (Or.inl h)]
    exact ⟨rfl, rfl, rfl, rfl⟩
  · unfold analyze_results
    rw [if_pos (Or.inl h)]
    exact ⟨rfl, rfl, rfl, rfl⟩
  · unfold vizStage
    rw [hviz, if_neg (by decide : ¬ ("skip_viz" : String) = "visualize")]
    exact ⟨rfl, rfl, rfl, rfl⟩
  · unfold format_final_response
    rw [if_pos h]
    exact ⟨rfl, rfl, rfl, rfl⟩

/-- Witness for C3 at a concrete errored session. -/
theorem error_frozen_fields_witness :
    errStateEx.error_message ≠ "" ∧
    (preservesFields (generate_sql_query (.ok "SELECT 1") errStateEx) errStateEx ∧
     preservesFields (execute_query (fun _ => .ok []) errStateEx) errStateEx ∧
     preservesFields (analyze_results (.ok "narrative") errStateEx) errStateEx ∧
     preservesFields (vizStage errStateEx) errStateEx ∧
     preservesFields (format_final_response errStateEx) errStateEx) :=
  ⟨by decide,
   error_frozen_fields (.ok "SELECT 1") (.ok "narrative") (fun _ => .ok [])
     errStateEx (by decide)⟩

/-- C4 (code bug): on an error-free session whose intent is an unrelated
greeting, the Response Composer that the class actually binds — the second
`format_final_response` definition, which shadows the first — returns the
generic compose output (just the query-used footer here), NOT the
capability-description greeting; only the shadowed first definition
(the one commented "FIXED") returns the greeting. -/
theorem format_final_response_shadow_bug :
    greetingStateEx.error_message = "" ∧
    greetingStateEx.parsed_intent.related_to_data = some false ∧
    greetingStateEx.parsed_intent.is_greeting = some true ∧
    (format_final_response greetingStateEx).final_response =
      "\n*Query used: ``*" ∧
    (format_final_response greetingStateEx).final_response ≠ greetingResponse ∧
    format_final_response_first greetingStateEx =
      .ok { greetingStateEx with final_response := greetingResponse } := by
  exact ⟨rfl, rfl, rfl, rfl, by decide, rfl⟩

/-- C5 (counterexample): a failing analysis stage on a healthy session with
results DOES set the session's error field — the claim that the failure is
recovered locally with no error set is false at this input. -/
theorem analysis_failure_sets_error_cx :
    (analyze_results (Except.error "rate limited") resultsStateEx).error_message =
      "Analysis failed: rate limited" ∧
    (analyze_results (Except.error "rate limited") resultsStateEx).error_message ≠ "" ∧
    should_create_visualization
      (analyze_results (Except.error "rate limited") resultsStateEx) = "skip_viz" ∧
    (format_final_response
      (analyze_results (Except.error "rate limited") resultsStateEx)).final_response =
      errorResponse "Analysis failed: rate limited" := by
  exact ⟨rfl, by decide, rfl, rfl⟩

/-- C5 (amended): when the analysis stage fails on a session with results
and no prior error, the session's error field IS set to the analysis
failure message, the narrative stays empty, the visualization branch is
skipped, and the composer produces the Branch A error response. -/
theorem analysis_failure_error_branch (e : String) (s : NYC311AnalyticsState)
    (h1 : s.error_message = "") (h2 : s.query_results ≠ []) :
    (analyze_results (Except.error e) s).error_message = "Analysis failed: " ++ e ∧
    (analyze_results (Except.error e) s).analysis_summary = s.analysis_summary ∧
    (analyze_results (Except.error e) s).sql_query = s.sql_query ∧
    (analyze_results (Except.error e) s).query_results = s.query_results ∧
    should_create_visualization (analyze_results (Except.error e) s) = "skip_viz" ∧
    (format_final_response (analyze_results (Except.error e) s)).final_response =
      errorResponse ("Analysis failed: " ++ e) := by
  have hstage : analyze_results (Except.error e) s =
      { s with error_message := "Analysis failed: " ++ e } := by
    unfold analyze_results
    rw [if_neg (by rintro (hne | hnil); exacts [hne h1, h2 hnil])]
  have hne : ("Analysis failed: " ++ e : String) ≠ "" := by
    intro hemp
    have hdata : ("Analysis failed: " ++ e).data = [] := by rw [hemp]
    rw [String.data_append] at hdata
    exact absurd (List.append_eq_nil.mp hdata).1 (by decide)
  rw [hstage]
  refine ⟨rfl, rfl, rfl, rfl, ?_, ?_⟩
  · unfold should_create_visualization
    rw [if_pos hne]
  · unfold format_final_response
    rw [if_pos hne]

/-- Witness for C5's amended claim at a concrete failing analysis call. -/
theorem analysis_failure_error_branch_witness :
    (resultsStateEx.error_message = "" ∧ resultsStateEx.query_results ≠ []) ∧
    ((analyze_results (Except.error "boom") resultsStateEx).error_message =
        "Analysis failed: " ++ "boom" ∧
      (analyze_results (Except.error "boom") resultsStateEx).analysis_summary =
        resultsStateEx.analysis_summary ∧
      (analyze_results (Except.error "boom") resultsStateEx).sql_query =
        resultsStateEx.sql_query ∧
      (analyze_results (Except.error "boom") resultsStateEx).query_results =
        resultsStateEx.query_results ∧
      should_create_visualization
        (analyze_results (Except.error "boom") resultsStateEx) = "skip_viz" ∧
      (format_final_response
        (analyze_results (Except.error "boom") resultsStateEx)).final_response =
        errorResponse ("Analysis failed: " ++ "boom")) :=
  ⟨⟨rfl, by decide⟩,
   analysis_failure_error_branch "boom" resultsStateEx rfl (by decide)⟩

/-- C6 (counterexample): a FAILED Intent Extraction call (the collaborator
raising) does fail the session: `parse_user_query` records an error message
and leaves the parsed intent untouched, instead of defaulting to a generic
intent with no error as the claim states. -/
theorem intent_call_failure_sets_error_cx :
    (parse_user_query (Except.error "connection reset") (fun _ => some Intent.empty)
      (initState "hello")).error_message =
      "Could not understand the question: connection reset" ∧
    (parse_user_query (Except.error "connection reset") (fun _ => some Intent.empty)
      (initState "hello")).error_message ≠ "" ∧
    (parse_user_query (Except.error "connection reset") (fun _ => some Intent.empty)
      (initState "hello")).parsed_intent = Intent.empty := by
  exact ⟨rfl, by decide, rfl⟩

/-- C6 (amended): for every malformed or unparseable response TEXT — one
whose cleaned-up form fails both JSON decoding attempts — the stage does
not fail the session: it stores the fallback intent
`{related_to_data: false, is_greeting: false, complexity: "unrelated"}`
(not an intent of kind `general`) and leaves the error field unchanged; a
failed collaborator call, by contrast, records an error. -/
theorem intent_parse_failure_defaults (content : String)
    (jsonLoads : String → Option Intent) (s : NYC311AnalyticsState)
    (h1 : jsonLoads (intentResponseText content) = none)
    (h2 : jsonLoads (swapQuotes (intentResponseText content)) = none) :
    (parse_user_query (Except.ok content) jsonLoads s).parsed_intent =
      fallbackIntent ∧
    (parse_user_query (Except.ok content) jsonLoads s).error_message =
      s.error_message := by
  simp only [parse_user_query]
  by_cases hempty : pyStrip (intentResponseText content) = ""
  · rw [if_pos hempty]
    exact ⟨rfl, rfl⟩
  · rw [if_neg hempty, h1, h2]
    exact ⟨rfl, rfl⟩

/-- Witness for C6's amended claim at a concrete garbage response. -/
theorem intent_parse_failure_defaults_witness :
    ((fun _ => (none : Option Intent)) (intentResponseText "not json at all") = none ∧
     (fun _ => (none : Option Intent))
       (swapQuotes (intentResponseText "not json at all")) = none) ∧
    ((parse_user_query (Except.ok "not json at all") (fun _ => none)
        (initState "hi")).parsed_intent = fallbackIntent ∧
     (parse_user_query (Except.ok "not json at all") (fun _ => none)
        (initState "hi")).error_message = (initState "hi").error_message) :=
  ⟨⟨rfl, rfl⟩,
   intent_parse_failure_defaults "not json at all" (fun _ => none)
     (initState "hi") rfl rfl⟩

/-- C10: the pipeline entry point is total over the workflow outcome: it
returns a record carrying the response text, the visualization data, the
query string and the raw rows of the final state, and substitutes an
apology message with empty values for the other fields when the workflow
raises. -/
theorem process_query_never_raises (outcome : Except String NYC311AnalyticsState) :
    (∀ e, outcome = .error e →
      process_query outcome =
        { response := "Sorry, I encountered an unexpected error: " ++ e
          visualization_data := none, sql_query := "", raw_results := [] }) ∧
    (∀ fs, outcome = .ok fs →
      process_query outcome =
        { response := fs.final_response
          visualization_data := fs.visualization_data
          sql_query := fs.sql_query
          raw_results := fs.query_results }) := by
  constructor
  · rintro e rfl
    rfl
  · rintro fs rfl
    rfl

/-- Witness for C10 at a concrete crashed workflow. -/
theorem process_query_never_raises_witness :
    ((Except.error "graph crashed" : Except String NYC311AnalyticsState) =
      .error "graph crashed") ∧
    process_query (Except.error "graph crashed") =
      { response := "Sorry, I encountered an unexpected error: " ++ "graph crashed"
        visualization_data := none, sql_query := "", raw_results := [] } :=
  ⟨rfl, (process_query_never_raises (Except.error "graph crashed")).1
    "graph crashed" rfl⟩

/-- C8: the Result Shaper (conditional edge plus `prepare_visualization`)
produces a descriptor exactly when no error is set, the intent's query kind
is chart-eligible, and `result_rows` has more than one row; when it does,
the descriptor has kind `bar`, a row payload equal to the first 20 result
rows, x-column the first column of the first row, and y-column the second
column of the first row (absent when there are fewer than two columns);
otherwise the descriptor stays absent. -/
theorem vizStage_descriptor_iff (s : NYC311AnalyticsState)
    (h0 : s.visualization_data = none) :
    ((vizStage s).visualization_data ≠ none ↔
      (s.error_message = "" ∧
        (∃ t, s.parsed_intent.query_type = some t ∧ t ∈ viz_types) ∧
        s.query_results.length > 1)) ∧
    (∀ v, (vizStage s).visualization_data = some v →
      v.type = "bar" ∧ v.data = s.query_results.take 20 ∧
      v.x_column = ((s.query_results.headD []).map Prod.fst).head? ∧
      v.y_column = ((s.query_results.headD []).map Prod.fst)[1]?) := by
  have heq := queryTypeEligible_iff s.parsed_intent
  by_cases herr : s.error_message = ""
  · by_cases hc : queryTypeEligible s.parsed_intent = true ∧ s.query_results.length > 1
    · have hvizb : should_create_visualization s = "visualize" := by
        unfold should_create_visualization
        rw [if_neg (fun hne => hne herr), if_pos hc]
      obtain ⟨hel, hlen⟩ := hc
      obtain ⟨r0, rest, hqr⟩ : ∃ r0 rest, s.query_results = r0 :: rest := by
        cases hq : s.query_results with
        | nil => rw [hq] at hlen; simp at hlen
        | cons a b => exact ⟨a, b, rfl⟩
      have hv : (vizStage s).visualization_data =
          some { type := "bar", data := s.query_results.take 20
                 x_column := ((s.query_results.headD []).map Prod.fst).head?
                 y_column := ((s.query_results.headD []).map Prod.fst)[1]? } := by
        unfold vizStage prepare_visualization
        rw [if_pos hvizb, hqr]
        rfl
      rw [hv]
      constructor
      · exact iff_of_true (fun h => Option.noConfusion h) ⟨herr, heq.mp hel, hlen⟩
      · intro v hveq
        cases Option.some.inj hveq
        exact ⟨rfl, rfl, rfl, rfl⟩
    · have hskip : should_create_visualization s = "skip_viz" := by
        unfold should_create_visualization
        rw [if_neg (fun hne => hne herr), if_neg hc]
      have hsame : vizStage s = s := by
        unfold vizStage
        rw [hskip]
        exact if_neg (by decide)
      rw [hsame, h0]
      constructor
      · refine iff_of_false (fun h => h rfl) ?_
        rintro ⟨-, hex, hlen⟩
        exact hc ⟨heq.mpr hex, hlen⟩
      · intro v hv
        exact Option.noConfusion hv
  · have hskip : should_create_visualization s = "skip_viz" := by
      unfold should_create_visualization
      rw [if_pos herr]
    have hsame : vizStage s = s := by
      unfold vizStage
      rw [hskip]
      exact if_neg (by decide)
    rw [hsame, h0]
    constructor
    · refine iff_of_false (fun h => h rfl) ?_
      rintro ⟨he, -, -⟩
      exact herr he
    · intro v hv
      exact Option.noConfusion hv

/-- Witness for C8 at a concrete eligible session. -/
theorem vizStage_descriptor_iff_witness :
    vizStateEx.visualization_data = none ∧
    (((vizStage vizStateEx).visualization_data ≠ none ↔
      (vizStateEx.error_message = "" ∧
        (∃ t, vizStateEx.parsed_intent.query_type = some t ∧ t ∈ viz_types) ∧
        vizStateEx.query_results.length > 1)) ∧
     (∀ v, (vizStage vizStateEx).visualization_data = some v →
       v.type = "bar" ∧ v.data = vizStateEx.query_results.take 20 ∧
       v.x_column = ((vizStateEx.query_results.headD []).map Prod.fst).head? ∧
       v.y_column = ((vizStateEx.query_results.headD []).map Prod.fst)[1]?)) :=
  ⟨rfl, vizStage_descriptor_iff vizStateEx rfl⟩

end NYC311
